import Mathlib

/-!
Shallow embedding of the settlement core of the Mom-Caregiver finance
tracker (backend/app): the pay-period lifecycle, the settlement
calculator, and the settlement record lifecycle.

Monetary values are Python `Decimal`s in the source; every operation the
core performs on them (sums, division by two, subtraction, quantization
to two decimal places) is exact rational arithmetic, so they are embedded
as `ℚ`.  Dates and timestamps are only ever compared, so they are
embedded as `ℤ`.  Each route handler becomes a function from the store
state to `Except ApiError (state × result)`; raising `HTTPException`
aborts the handler before any mutation, so an `error` result leaves the
state of the caller untouched by construction.
-/

namespace MomCaregiver

/-- The enum `app.models.expense.Payer` - the two cost-sharing parties. -/
inductive Payer where
  | ADI
  | RAFI
deriving DecidableEq, Repr

/-- The enum `app.models.settlement.SettlementDirection`. -/
inductive SettlementDirection where
  | ADI_OWES_RAFI
  | RAFI_OWES_ADI
  | EVEN
deriving DecidableEq, Repr

/-- The enum `app.models.pay_period.PeriodStatus`. -/
inductive PeriodStatus where
  | OPEN
  | CLOSED
deriving DecidableEq, Repr

/-- The model `app.models.pay_period.PayPeriod` (columns the core reads or writes). -/
structure PayPeriod where
  id : Nat
  start_date : Int
  end_date : Int
  status : PeriodStatus
  is_historical : Bool := false
  notes : Option String := none
deriving DecidableEq, Repr

/-- The model `app.models.time_entry.TimeEntry` (columns the calculator reads). -/
structure TimeEntry where
  pay_period_id : Nat
  total_pay : ℚ
deriving DecidableEq, Repr

/-- The model `app.models.expense.Expense` (columns the calculator reads). -/
structure Expense where
  pay_period_id : Nat
  amount : ℚ
  paid_by : Payer
deriving DecidableEq, Repr

/-- The model `app.models.settlement.Settlement` (all columns the core touches). -/
structure Settlement where
  pay_period_id : Nat
  total_caregiver_cost : ℚ
  total_expenses : ℚ
  adi_paid : ℚ
  rafi_paid : ℚ
  settlement_amount : ℚ
  settlement_direction : SettlementDirection
  carryover_amount : ℚ
  final_amount : ℚ
  settled : Bool := false
  settled_at : Option Int := none
  payment_method : Option String := none
deriving DecidableEq, Repr

/-- The ledger store: the four tables the core queries and mutates. -/
structure DB where
  periods : List PayPeriod
  time_entries : List TimeEntry
  expenses : List Expense
  settlements : List Settlement
deriving DecidableEq, Repr

/-- Query `db.query(PayPeriod).filter(PayPeriod.id == period_id).first()`. -/
def findPeriod (db : DB) (period_id : Nat) : Option PayPeriod :=
  db.periods.find? (fun p => p.id == period_id)

/-- Query `db.query(PayPeriod).filter(PayPeriod.status == PeriodStatus.OPEN).first()`. -/
def findOpenPeriod (db : DB) : Option PayPeriod :=
  db.periods.find? (fun p => p.status == PeriodStatus.OPEN)

/-- Query `db.query(Settlement).filter(Settlement.pay_period_id == period_id).first()`. -/
def findSettlement (db : DB) (period_id : Nat) : Option Settlement :=
  db.settlements.find? (fun s => s.pay_period_id == period_id)

/-- Query `db.query(TimeEntry).filter(TimeEntry.pay_period_id == period_id).all()`. -/
def periodTimeEntries (db : DB) (period_id : Nat) : List TimeEntry :=
  db.time_entries.filter (fun t => t.pay_period_id == period_id)

/-- Query `db.query(Expense).filter(Expense.pay_period_id == period_id).all()`. -/
def periodExpenses (db : DB) (period_id : Nat) : List Expense :=
  db.expenses.filter (fun e => e.pay_period_id == period_id)

/-- Python `Decimal.quantize(Decimal("0.01"))` under the default context
rounding mode `ROUND_HALF_EVEN`: round to the nearest multiple of 1/100,
ties going to the even hundredth. -/
def quantize2 (v : ℚ) : ℚ :=
  let f : ℤ := ⌊v * 100⌋
  let r : ℚ := v * 100 - f
  if r < 1/2 then f / 100
  else if 1/2 < r then (f + 1) / 100
  else if f % 2 = 0 then f / 100 else (f + 1) / 100

/-- Line 29 of settlement_calculator.py:
`total_caregiver_cost = sum(e.total_pay for e in time_entries)`. -/
def totalCaregiverCost (db : DB) (period_id : Nat) : ℚ :=
  ((periodTimeEntries db period_id).map (fun t => t.total_pay)).sum

/-- Line 30: `total_expenses = sum(e.amount for e in expenses)`. -/
def totalExpenses (db : DB) (period_id : Nat) : ℚ :=
  ((periodExpenses db period_id).map (fun e => e.amount)).sum

/-- Line 33: `adi_paid = sum(e.amount for e in expenses if e.paid_by == Payer.ADI)`. -/
def adiPaid (db : DB) (period_id : Nat) : ℚ :=
  (((periodExpenses db period_id).filter (fun e => e.paid_by == Payer.ADI)).map
    (fun e => e.amount)).sum

/-- Line 34: `rafi_paid = sum(e.amount for e in expenses if e.paid_by == Payer.RAFI)`. -/
def rafiPaid (db : DB) (period_id : Nat) : ℚ :=
  (((periodExpenses db period_id).filter (fun e => e.paid_by == Payer.RAFI)).map
    (fun e => e.amount)).sum

/-- Lines 37-38: `total_cost = total_expenses; fair_share = total_cost / 2`
(exact `Decimal` division). -/
def fairShare (db : DB) (period_id : Nat) : ℚ :=
  totalExpenses db period_id / 2

/-- Lines 41-49: the unrounded settlement amount chosen by the
three-way branch of `calculate_settlement`. -/
def rawSettlementAmount (db : DB) (period_id : Nat) : ℚ :=
  if adiPaid db period_id > fairShare db period_id then
    adiPaid db period_id - fairShare db period_id
  else if rafiPaid db period_id > fairShare db period_id then
    rafiPaid db period_id - fairShare db period_id
  else 0

/-- Lines 41-49: the direction chosen by the same branch. -/
def settlementDirectionOf (db : DB) (period_id : Nat) : SettlementDirection :=
  if adiPaid db period_id > fairShare db period_id then
    SettlementDirection.RAFI_OWES_ADI
  else if rafiPaid db period_id > fairShare db period_id then
    SettlementDirection.ADI_OWES_RAFI
  else SettlementDirection.EVEN

/-- Replace every settlement row for `period_id` by `t` (SQLAlchemy
mutates the row `.first()` returned; the unique constraint on
`pay_period_id` means at most one row matches, so replacing all matching
rows is the same update). -/
def setSettlement (db : DB) (period_id : Nat) (t : Settlement) : DB :=
  { db with settlements :=
      db.settlements.map (fun s => if s.pay_period_id == period_id then t else s) }

/-- The function `app.services.settlement_calculator.calculate_settlement`:
computes the period totals, the direction and the rounded settlement
amount, then updates the existing settlement row in place (preserving
`settled`, `settled_at`, `payment_method`, `carryover_amount`) or
inserts a fresh row with `carryover_amount = 0` and the model column
defaults `settled = false`, `settled_at = null`, `payment_method = null`.
Returns the new store state together with the persisted row. -/
def calculate_settlement (db : DB) (period_id : Nat) : DB × Settlement :=
  let total_caregiver_cost := totalCaregiverCost db period_id
  let total_expenses := totalExpenses db period_id
  let adi_paid := adiPaid db period_id
  let rafi_paid := rafiPaid db period_id
  let direction := settlementDirectionOf db period_id
  let settlement_amount := quantize2 (rawSettlementAmount db period_id)
  match findSettlement db period_id with
  | some existing =>
      let updated : Settlement :=
        { existing with
          total_caregiver_cost := total_caregiver_cost
          total_expenses := total_expenses
          adi_paid := adi_paid
          rafi_paid := rafi_paid
          settlement_amount := settlement_amount
          settlement_direction := direction
          final_amount := settlement_amount + existing.carryover_amount }
      (setSettlement db period_id updated, updated)
  | none =>
      let settlement : Settlement :=
        { pay_period_id := period_id
          total_caregiver_cost := total_caregiver_cost
          total_expenses := total_expenses
          adi_paid := adi_paid
          rafi_paid := rafi_paid
          settlement_amount := settlement_amount
          settlement_direction := direction
          carryover_amount := 0
          final_amount := settlement_amount }
      ({ db with settlements := db.settlements ++ [settlement] }, settlement)

/-- The error taxonomy of the routes: `HTTPException(404, ...)` is a
not-found failure, `HTTPException(400, ...)` raised on a state-invariant
violation is a conflict, and a Pydantic validator `ValueError` is a
validation failure.  Raising aborts the handler before any store write,
so an operation returning `error` has made no state change. -/
inductive ApiError where
  | notFound (detail : String)
  | conflict (detail : String)
  | validation (detail : String)
deriving DecidableEq, Repr

/-- Route `POST /api/pay-periods` (`create_pay_period` in pay_periods.py),
including the `PayPeriodCreate.end_date_must_be_after_start` Pydantic
validator that runs before the handler body.  `new_id` stands for the
autoincrement key the store assigns. -/
def create_pay_period (db : DB) (start_date end_date : Int)
    (notes : Option String) (new_id : Nat) :
    Except ApiError (DB × PayPeriod) :=
  if end_date ≤ start_date then
    .error (.validation "end_date must be after start_date")
  else
    match findOpenPeriod db with
    | some _ =>
        .error (.conflict
          "There is already an open period. Close it before creating a new one.")
    | none =>
        let db_period : PayPeriod :=
          { id := new_id
            start_date := start_date
            end_date := end_date
            notes := notes
            status := PeriodStatus.OPEN }
        .ok ({ db with periods := db.periods ++ [db_period] }, db_period)

/-- Replace every period row with id `period_id` by `t` (the row is
looked up with `.first()` and mutated in place; ids are the primary key,
so at most one row matches). -/
def setPeriod (db : DB) (period_id : Nat) (t : PayPeriod) : DB :=
  { db with periods :=
      db.periods.map (fun p => if p.id == period_id then t else p) }

/-- Route `POST /api/pay-periods/.../close` (`close_pay_period`): 404 if the
period is missing, 400 if it is already CLOSED, else set status CLOSED. -/
def close_pay_period (db : DB) (period_id : Nat) :
    Except ApiError (DB × PayPeriod) :=
  match findPeriod db period_id with
  | none => .error (.notFound "Pay period not found")
  | some period =>
      if period.status == PeriodStatus.CLOSED then
        .error (.conflict "Period is already closed")
      else
        let updated := { period with status := PeriodStatus.CLOSED }
        .ok (setPeriod db period_id updated, updated)

/-- Modelled from the spec: the tests of this repository (test_api.py, Task 36)
call `POST /api/pay-periods/.../reopen`, but no reopen handler exists
under the application source, so the operation is taken from spec 4.1:
it fails NotFound if the period is missing, Conflict if the period is
already OPEN, Conflict if a different period is currently OPEN, and on
success transitions the period to OPEN and force-unsettles its
settlement if one exists (clearing `settled` and `settled_at`),
silently doing nothing to settlements when no row exists. -/
def reopen_pay_period (db : DB) (period_id : Nat) :
    Except ApiError (DB × PayPeriod) :=
  match findPeriod db period_id with
  | none => .error (.notFound "Pay period not found")
  | some period =>
      if period.status == PeriodStatus.OPEN then
        .error (.conflict "Period is already open")
      else
        match findOpenPeriod db with
        | some _ => .error (.conflict "There is already an open period")
        | none =>
            let updated := { period with status := PeriodStatus.OPEN }
            let db1 := setPeriod db period_id updated
            let db2 :=
              { db1 with settlements :=
                  db1.settlements.map (fun s =>
                    if s.pay_period_id == period_id then
                      { s with settled := false, settled_at := none }
                    else s) }
            .ok (db2, updated)

/-- Route `GET /api/settlements/...` (`get_settlement` in settlements.py):
404 if the period is missing, else calculate (or refresh) the
settlement. -/
def get_settlement (db : DB) (period_id : Nat) :
    Except ApiError (DB × Settlement) :=
  match findPeriod db period_id with
  | none => .error (.notFound "Pay period not found")
  | some _ => .ok (calculate_settlement db period_id)

/-- Route `POST /api/settlements/.../mark-settled` (`mark_settled`): 404 if
the period is missing; computes a settlement first when none exists;
then sets `settled`, `settled_at = now` and `payment_method` from the
request. -/
def mark_settled (db : DB) (period_id : Nat) (payment_method : Option String)
    (now : Int) : Except ApiError (DB × Settlement) :=
  match findPeriod db period_id with
  | none => .error (.notFound "Pay period not found")
  | some _ =>
      let found :=
        match findSettlement db period_id with
        | some s => (db, s)
        | none => calculate_settlement db period_id
      let updated :=
        { found.2 with
          settled := true
          settled_at := some now
          payment_method := payment_method }
      .ok (setSettlement found.1 period_id updated, updated)

/-- Route `POST /api/settlements/.../unsettle` (`unsettle`): 404 if the period
is missing, 404 if no settlement row exists, 400 if the settlement is
not settled; else set `settled = false`, clear `settled_at`, keep
everything else. -/
def unsettle (db : DB) (period_id : Nat) :
    Except ApiError (DB × Settlement) :=
  match findPeriod db period_id with
  | none => .error (.notFound "Pay period not found")
  | some _ =>
      match findSettlement db period_id with
      | none => .error (.notFound "Settlement not found for this period")
      | some settlement =>
          if !settlement.settled then
            .error (.conflict "Settlement is not settled")
          else
            let updated := { settlement with settled := false, settled_at := none }
            .ok (setSettlement db period_id updated, updated)

/-- Runs `mark_settled` immediately followed by `unsettle` on the resulting
state (scenario chaining used by the round-trip property). -/
def markThenUnsettle (db : DB) (period_id : Nat) (payment_method : Option String)
    (now : Int) : Except ApiError (DB × Settlement) :=
  match mark_settled db period_id payment_method now with
  | .error e => .error e
  | .ok (db1, _) => unsettle db1 period_id

/-- The rounding rule the spec prescribes in 4.2 step 6, written from
the words of the spec for comparison with the `quantize2` of the code:
round to 2 decimal places with round-half-up, i.e. a fractional part of
exactly half a cent always rounds to the larger cent value. -/
def roundHalfUp2 (v : ℚ) : ℚ :=
  let f : ℤ := ⌊v * 100⌋
  let r : ℚ := v * 100 - f
  if r < 1/2 then f / 100 else (f + 1) / 100

/-- The states reachable from an empty store through the pay-period
creation and closing operations (each step a successful call). -/
inductive Reachable : DB → Prop where
  | init : Reachable { periods := [], time_entries := [], expenses := [],
                       settlements := [] }
  | create {db db' : DB} {s e : Int} {n : Option String} {i : Nat}
      {p : PayPeriod} (hdb : Reachable db)
      (h : create_pay_period db s e n i = .ok (db', p)) : Reachable db'
  | close {db db' : DB} {pid : Nat} {p : PayPeriod} (hdb : Reachable db)
      (h : close_pay_period db pid = .ok (db', p)) : Reachable db'

/-- The number of OPEN periods in the store. -/
def countOpen (db : DB) : Nat :=
  db.periods.countP (fun p => p.status == PeriodStatus.OPEN)

/-! Sample stores used to witness the claims -/

/-- A store with one OPEN period and no other rows. -/
def dbEmptyOpen : DB :=
  { periods := [{ id := 1, start_date := 0, end_date := 14,
                  status := PeriodStatus.OPEN }]
    time_entries := []
    expenses := []
    settlements := [] }

/-- A store with one CLOSED period and no other rows. -/
def dbEmptyClosed : DB :=
  { periods := [{ id := 1, start_date := 0, end_date := 14,
                  status := PeriodStatus.CLOSED }]
    time_entries := []
    expenses := []
    settlements := [] }

/-- Scenario 1 of the spec: A pays 800 rent, B pays 200 groceries. -/
def dbAdiOver : DB :=
  { periods := [{ id := 1, start_date := 0, end_date := 14,
                  status := PeriodStatus.OPEN }]
    time_entries := []
    expenses := [{ pay_period_id := 1, amount := 800, paid_by := Payer.ADI },
                 { pay_period_id := 1, amount := 200, paid_by := Payer.RAFI }]
    settlements := [] }

/-- Rafi pays 800 rent, Adi pays 200 groceries. -/
def dbRafiOver : DB :=
  { periods := [{ id := 1, start_date := 0, end_date := 14,
                  status := PeriodStatus.OPEN }]
    time_entries := []
    expenses := [{ pay_period_id := 1, amount := 200, paid_by := Payer.ADI },
                 { pay_period_id := 1, amount := 800, paid_by := Payer.RAFI }]
    settlements := [] }

/-- Scenario 3 of the spec: each party pays exactly 500. -/
def dbEven : DB :=
  { periods := [{ id := 1, start_date := 0, end_date := 14,
                  status := PeriodStatus.OPEN }]
    time_entries := []
    expenses := [{ pay_period_id := 1, amount := 500, paid_by := Payer.ADI },
                 { pay_period_id := 1, amount := 500, paid_by := Payer.RAFI }]
    settlements := [] }

/-- A single expense of 100.01 paid by Adi: the raw settlement amount is
50.005, an exact half-cent tie over the even cent value 50.00. -/
def dbHalfCent : DB :=
  { periods := [{ id := 1, start_date := 0, end_date := 14,
                  status := PeriodStatus.OPEN }]
    time_entries := []
    expenses := [{ pay_period_id := 1, amount := 10001/100, paid_by := Payer.ADI }]
    settlements := [] }

/-- A settlement row for period 1 as the calculator would freshly
create it for the 800/200 scenario, then adjusted for reuse in
settle/unsettle witnesses. -/
def sampleSettlement : Settlement :=
  { pay_period_id := 1
    total_caregiver_cost := 0
    total_expenses := 1000
    adi_paid := 800
    rafi_paid := 200
    settlement_amount := 300
    settlement_direction := SettlementDirection.RAFI_OWES_ADI
    carryover_amount := 0
    final_amount := 300 }

/-- The 800/200 store with an existing (unsettled) settlement row. -/
def dbWithSettlement : DB :=
  { dbAdiOver with settlements := [sampleSettlement] }

/-- The 800/200 store with its settlement marked settled. -/
def dbWithSettledSettlement : DB :=
  { dbAdiOver with settlements :=
      [{ sampleSettlement with
          settled := true
          settled_at := some 5
          payment_method := some "Transfer" }] }

/-- Scenario 4 of the spec: P1 is CLOSED while P2 is OPEN. -/
def dbClosedPlusOpen : DB :=
  { periods := [{ id := 1, start_date := 0, end_date := 14,
                  status := PeriodStatus.CLOSED },
                { id := 2, start_date := 14, end_date := 28,
                  status := PeriodStatus.OPEN }]
    time_entries := []
    expenses := []
    settlements := [] }

/-- A CLOSED period whose settlement was marked settled (scenario 5
just before the reopen step). -/
def dbClosedSettled : DB :=
  { periods := [{ id := 1, start_date := 0, end_date := 14,
                  status := PeriodStatus.CLOSED }]
    time_entries := []
    expenses := []
    settlements := [{ sampleSettlement with
                        settled := true
                        settled_at := some 5
                        payment_method := some "Transfer" }] }

/-- The store scenario 5 expects after reopening: the period OPEN again
and its settlement force-unsettled with the payment method retained. -/
def dbClosedSettledReopened : DB :=
  { periods := [{ id := 1, start_date := 0, end_date := 14,
                  status := PeriodStatus.OPEN }]
    time_entries := []
    expenses := []
    settlements := [{ sampleSettlement with
                        settled := false
                        settled_at := none
                        payment_method := some "Transfer" }] }

/-! Helper lemmas about the store operations -/

theorem payer_beq_ADI_ADI : (Payer.ADI == Payer.ADI) = true := rfl

theorem payer_beq_ADI_RAFI : (Payer.ADI == Payer.RAFI) = false := rfl

theorem payer_beq_RAFI_ADI : (Payer.RAFI == Payer.ADI) = false := rfl

theorem payer_beq_RAFI_RAFI : (Payer.RAFI == Payer.RAFI) = true := rfl

theorem status_beq_OPEN_OPEN :
    (PeriodStatus.OPEN == PeriodStatus.OPEN) = true := rfl

theorem status_beq_OPEN_CLOSED :
    (PeriodStatus.OPEN == PeriodStatus.CLOSED) = false := rfl

theorem status_beq_CLOSED_OPEN :
    (PeriodStatus.CLOSED == PeriodStatus.OPEN) = false := rfl

theorem status_beq_CLOSED_CLOSED :
    (PeriodStatus.CLOSED == PeriodStatus.CLOSED) = true := rfl

/-- Replacing all rows matched by `p` with a row `t` that itself matches
`p` turns the first match into `t`. -/
theorem find?_map_ite {α : Type} (l : List α) (p : α → Bool) (t : α)
    (ht : p t = true) :
    (l.map (fun s => if p s then t else s)).find? p
      = (l.find? p).map (fun _ => t) := by
  induction l with
  | nil => rfl
  | cons a l ih =>
      by_cases h : p a = true
      · simp [List.find?_cons, h, ht]
      · simp only [Bool.not_eq_true] at h
        simp [List.find?_cons, h, ih]

theorem setSettlement_periods (db : DB) (pid : Nat) (t : Settlement) :
    (setSettlement db pid t).periods = db.periods := rfl

theorem setSettlement_expenses (db : DB) (pid : Nat) (t : Settlement) :
    (setSettlement db pid t).expenses = db.expenses := rfl

theorem setSettlement_time_entries (db : DB) (pid : Nat) (t : Settlement) :
    (setSettlement db pid t).time_entries = db.time_entries := rfl

theorem setPeriod_settlements (db : DB) (pid : Nat) (t : PayPeriod) :
    (setPeriod db pid t).settlements = db.settlements := rfl

theorem findSettlement_setSettlement (db : DB) (pid : Nat) (t : Settlement)
    (ht : t.pay_period_id = pid) :
    findSettlement (setSettlement db pid t) pid
      = (findSettlement db pid).map (fun _ => t) := by
  unfold findSettlement setSettlement
  exact find?_map_ite db.settlements _ t (by simp [ht])

theorem findPeriod_setSettlement (db : DB) (pid qid : Nat) (t : Settlement) :
    findPeriod (setSettlement db pid t) qid = findPeriod db qid := rfl

/-- The function `calculate_settlement` only writes the settlements table. -/
theorem calc_fst_periods (db : DB) (pid : Nat) :
    (calculate_settlement db pid).1.periods = db.periods := by
  unfold calculate_settlement
  cases findSettlement db pid <;> rfl

theorem calc_fst_expenses (db : DB) (pid : Nat) :
    (calculate_settlement db pid).1.expenses = db.expenses := by
  unfold calculate_settlement
  cases findSettlement db pid <;> rfl

theorem calc_fst_time_entries (db : DB) (pid : Nat) :
    (calculate_settlement db pid).1.time_entries = db.time_entries := by
  unfold calculate_settlement
  cases findSettlement db pid <;> rfl

/-- The monetary fields the calculator always (re)writes. -/
theorem calc_snd_total_caregiver_cost (db : DB) (pid : Nat) :
    (calculate_settlement db pid).2.total_caregiver_cost
      = totalCaregiverCost db pid := by
  unfold calculate_settlement
  cases findSettlement db pid <;> rfl

theorem calc_snd_total_expenses (db : DB) (pid : Nat) :
    (calculate_settlement db pid).2.total_expenses = totalExpenses db pid := by
  unfold calculate_settlement
  cases findSettlement db pid <;> rfl

theorem calc_snd_adi_paid (db : DB) (pid : Nat) :
    (calculate_settlement db pid).2.adi_paid = adiPaid db pid := by
  unfold calculate_settlement
  cases findSettlement db pid <;> rfl

theorem calc_snd_rafi_paid (db : DB) (pid : Nat) :
    (calculate_settlement db pid).2.rafi_paid = rafiPaid db pid := by
  unfold calculate_settlement
  cases findSettlement db pid <;> rfl

theorem calc_snd_settlement_amount (db : DB) (pid : Nat) :
    (calculate_settlement db pid).2.settlement_amount
      = quantize2 (rawSettlementAmount db pid) := by
  unfold calculate_settlement
  cases findSettlement db pid <;> rfl

theorem calc_snd_direction (db : DB) (pid : Nat) :
    (calculate_settlement db pid).2.settlement_direction
      = settlementDirectionOf db pid := by
  unfold calculate_settlement
  cases findSettlement db pid <;> rfl

/-- The fields the calculator preserves when a row already exists. -/
theorem calc_snd_preserved (db : DB) (pid : Nat) (s : Settlement)
    (h : findSettlement db pid = some s) :
    (calculate_settlement db pid).2.settled = s.settled
    ∧ (calculate_settlement db pid).2.settled_at = s.settled_at
    ∧ (calculate_settlement db pid).2.payment_method = s.payment_method
    ∧ (calculate_settlement db pid).2.carryover_amount = s.carryover_amount
    ∧ (calculate_settlement db pid).2.final_amount
        = quantize2 (rawSettlementAmount db pid) + s.carryover_amount := by
  unfold calculate_settlement
  rw [h]
  exact ⟨rfl, rfl, rfl, rfl, rfl⟩

/-- The defaults the calculator writes when no row exists. -/
theorem calc_snd_fresh (db : DB) (pid : Nat)
    (h : findSettlement db pid = none) :
    (calculate_settlement db pid).2.settled = false
    ∧ (calculate_settlement db pid).2.settled_at = none
    ∧ (calculate_settlement db pid).2.payment_method = none
    ∧ (calculate_settlement db pid).2.carryover_amount = 0
    ∧ (calculate_settlement db pid).2.final_amount
        = quantize2 (rawSettlementAmount db pid)
    ∧ (calculate_settlement db pid).2.pay_period_id = pid := by
  unfold calculate_settlement
  rw [h]
  exact ⟨rfl, rfl, rfl, rfl, rfl, rfl⟩

/-- In both calculator branches the persisted `final_amount` is the
rounded settlement amount plus the persisted `carryover_amount`. -/
theorem calc_snd_final (db : DB) (pid : Nat) :
    (calculate_settlement db pid).2.final_amount
      = quantize2 (rawSettlementAmount db pid)
        + (calculate_settlement db pid).2.carryover_amount := by
  unfold calculate_settlement
  cases findSettlement db pid with
  | some s => rfl
  | none => exact (add_zero _).symm

/-- A row returned by `findSettlement` carries the period id it was
looked up by. -/
theorem findSettlement_some_id (db : DB) (pid : Nat) (s : Settlement)
    (h : findSettlement db pid = some s) : s.pay_period_id = pid := by
  have h' : db.settlements.find? (fun t => t.pay_period_id == pid) = some s := h
  have hs := List.find?_some h'
  simpa using hs

theorem calc_snd_pay_period_id (db : DB) (pid : Nat) :
    (calculate_settlement db pid).2.pay_period_id = pid := by
  unfold calculate_settlement
  cases h : findSettlement db pid with
  | some s => exact findSettlement_some_id db pid s h
  | none => rfl

/-- After the calculator runs, the persisted row for the period is
exactly the row it returns. -/
theorem findSettlement_calc (db : DB) (pid : Nat) :
    findSettlement (calculate_settlement db pid).1 pid
      = some (calculate_settlement db pid).2 := by
  cases h : findSettlement db pid with
  | some s =>
      have hs : s.pay_period_id = pid := findSettlement_some_id db pid s h
      simp only [calculate_settlement, h]
      rw [findSettlement_setSettlement, h]
      · rfl
      · exact hs
  | none =>
      simp only [calculate_settlement, h]
      have h' : db.settlements.find? (fun t => t.pay_period_id == pid) = none := h
      unfold findSettlement
      rw [List.find?_append, h']
      simp

/-- The per-period queries only look at the relevant table. -/
theorem periodExpenses_congr (db db' : DB) (pid : Nat)
    (h : db'.expenses = db.expenses) :
    periodExpenses db' pid = periodExpenses db pid := by
  unfold periodExpenses
  rw [h]

theorem periodTimeEntries_congr (db db' : DB) (pid : Nat)
    (h : db'.time_entries = db.time_entries) :
    periodTimeEntries db' pid = periodTimeEntries db pid := by
  unfold periodTimeEntries
  rw [h]

/-- The calculator inputs are unchanged by its own write, so every
derived quantity is stable under recalculation. -/
theorem totalCaregiverCost_calc_fst (db : DB) (pid qid : Nat) :
    totalCaregiverCost (calculate_settlement db pid).1 qid
      = totalCaregiverCost db qid := by
  unfold totalCaregiverCost
  rw [periodTimeEntries_congr db _ qid (calc_fst_time_entries db pid)]

theorem totalExpenses_calc_fst (db : DB) (pid qid : Nat) :
    totalExpenses (calculate_settlement db pid).1 qid = totalExpenses db qid := by
  unfold totalExpenses
  rw [periodExpenses_congr db _ qid (calc_fst_expenses db pid)]

theorem adiPaid_calc_fst (db : DB) (pid qid : Nat) :
    adiPaid (calculate_settlement db pid).1 qid = adiPaid db qid := by
  unfold adiPaid
  rw [periodExpenses_congr db _ qid (calc_fst_expenses db pid)]

theorem rafiPaid_calc_fst (db : DB) (pid qid : Nat) :
    rafiPaid (calculate_settlement db pid).1 qid = rafiPaid db qid := by
  unfold rafiPaid
  rw [periodExpenses_congr db _ qid (calc_fst_expenses db pid)]

theorem fairShare_calc_fst (db : DB) (pid qid : Nat) :
    fairShare (calculate_settlement db pid).1 qid = fairShare db qid := by
  unfold fairShare
  rw [totalExpenses_calc_fst]

theorem rawSettlementAmount_calc_fst (db : DB) (pid qid : Nat) :
    rawSettlementAmount (calculate_settlement db pid).1 qid
      = rawSettlementAmount db qid := by
  unfold rawSettlementAmount
  rw [adiPaid_calc_fst, rafiPaid_calc_fst, fairShare_calc_fst]

theorem settlementDirectionOf_calc_fst (db : DB) (pid qid : Nat) :
    settlementDirectionOf (calculate_settlement db pid).1 qid
      = settlementDirectionOf db qid := by
  unfold settlementDirectionOf
  rw [adiPaid_calc_fst, rafiPaid_calc_fst, fairShare_calc_fst]

theorem quantize2_zero : quantize2 0 = 0 := by
  rw [quantize2]
  norm_num

/-- Splitting any expense list by the two-valued payer enumeration and
summing the parts recovers the total sum. -/
theorem paid_split (l : List Expense) :
    ((l.filter (fun e => e.paid_by == Payer.ADI)).map (fun e => e.amount)).sum
      + ((l.filter (fun e => e.paid_by == Payer.RAFI)).map (fun e => e.amount)).sum
      = (l.map (fun e => e.amount)).sum := by
  induction l with
  | nil => simp
  | cons e l ih =>
      cases h : e.paid_by <;>
        simp only [List.filter_cons, h, List.map_cons, List.sum_cons] <;>
        simp <;> linarith [ih]

/-! The claims -/

/-- C4: for every period, the computed `adi_paid` plus `rafi_paid`
equals `total_expenses` exactly - both as the calculator derives them
from the expense table (the payer of every expense is one of the two
enumeration values) and as persisted on the settlement row. -/
theorem balance_law (db : DB) (pid : Nat) :
    adiPaid db pid + rafiPaid db pid = totalExpenses db pid
    ∧ (calculate_settlement db pid).2.adi_paid
        + (calculate_settlement db pid).2.rafi_paid
        = (calculate_settlement db pid).2.total_expenses := by
  have h : adiPaid db pid + rafiPaid db pid = totalExpenses db pid := by
    unfold adiPaid rafiPaid totalExpenses
    exact paid_split (periodExpenses db pid)
  refine ⟨h, ?_⟩
  rw [calc_snd_adi_paid, calc_snd_rafi_paid, calc_snd_total_expenses]
  exact h

/-- C3: with `fair_share = total_expenses / 2` by exact division, the
persisted settlement has direction RAFI_OWES_ADI (B owes A) and amount
`adi_paid - fair_share` (rounded at the boundary) when Adi overpaid,
direction ADI_OWES_RAFI and amount `rafi_paid - fair_share` when Rafi
overpaid, and otherwise direction EVEN with amount 0. -/
theorem settlement_direction_cases (db : DB) (pid : Nat) :
    (adiPaid db pid > fairShare db pid →
        (calculate_settlement db pid).2.settlement_direction
            = SettlementDirection.RAFI_OWES_ADI
        ∧ (calculate_settlement db pid).2.settlement_amount
            = quantize2 (adiPaid db pid - fairShare db pid))
    ∧ (¬ adiPaid db pid > fairShare db pid →
        rafiPaid db pid > fairShare db pid →
        (calculate_settlement db pid).2.settlement_direction
            = SettlementDirection.ADI_OWES_RAFI
        ∧ (calculate_settlement db pid).2.settlement_amount
            = quantize2 (rafiPaid db pid - fairShare db pid))
    ∧ (¬ adiPaid db pid > fairShare db pid →
        ¬ rafiPaid db pid > fairShare db pid →
        (calculate_settlement db pid).2.settlement_direction
            = SettlementDirection.EVEN
        ∧ (calculate_settlement db pid).2.settlement_amount = 0) := by
  rw [calc_snd_direction, calc_snd_settlement_amount]
  unfold settlementDirectionOf rawSettlementAmount
  refine ⟨fun h1 => ?_, fun h1 h2 => ?_, fun h1 h2 => ?_⟩
  · rw [if_pos h1, if_pos h1]
    exact ⟨rfl, rfl⟩
  · rw [if_neg h1, if_pos h2, if_neg h1, if_pos h2]
    exact ⟨rfl, rfl⟩
  · rw [if_neg h1, if_neg h2, if_neg h1, if_neg h2]
    exact ⟨rfl, quantize2_zero⟩

/-- Witness for C3: the three branches at the concrete scenarios of the spec
(800/200 gives RAFI_OWES_ADI and 300, 200/800 gives ADI_OWES_RAFI and
300, 500/500 gives EVEN and 0). -/
theorem settlement_direction_cases_witness :
    ((calculate_settlement dbAdiOver 1).2.settlement_direction
          = SettlementDirection.RAFI_OWES_ADI
      ∧ (calculate_settlement dbAdiOver 1).2.settlement_amount
          = quantize2 (adiPaid dbAdiOver 1 - fairShare dbAdiOver 1))
    ∧ ((calculate_settlement dbRafiOver 1).2.settlement_direction
          = SettlementDirection.ADI_OWES_RAFI
      ∧ (calculate_settlement dbRafiOver 1).2.settlement_amount
          = quantize2 (rafiPaid dbRafiOver 1 - fairShare dbRafiOver 1))
    ∧ ((calculate_settlement dbEven 1).2.settlement_direction
          = SettlementDirection.EVEN
      ∧ (calculate_settlement dbEven 1).2.settlement_amount = 0) := by
  refine ⟨(settlement_direction_cases dbAdiOver 1).1 ?_,
    (settlement_direction_cases dbRafiOver 1).2.1 ?_ ?_,
    (settlement_direction_cases dbEven 1).2.2 ?_ ?_⟩ <;>
    norm_num [adiPaid, rafiPaid, fairShare, totalExpenses, periodExpenses,
      dbAdiOver, dbRafiOver, dbEven, payer_beq_ADI_ADI, payer_beq_ADI_RAFI,
      payer_beq_RAFI_ADI, payer_beq_RAFI_RAFI]

/-- C2 counterexample: for the single expense 100.01 paid by Adi the
raw amount is 50.005 - its third decimal digit is exactly 5 - yet the
persisted `settlement_amount` is 50.00, the nearest even cent, not the
rounded-up 50.01 the claim requires.  (`Decimal.quantize` is called
without a rounding argument, so the Python default ROUND_HALF_EVEN
applies, not ROUND_HALF_UP.) -/
theorem settlement_rounding_counterexample :
    adiPaid dbHalfCent 1 - fairShare dbHalfCent 1 = 10001/200
    ∧ roundHalfUp2 (10001/200) = 5001/100
    ∧ (calculate_settlement dbHalfCent 1).2.settlement_amount = 50
    ∧ (calculate_settlement dbHalfCent 1).2.settlement_amount
        ≠ roundHalfUp2 (adiPaid dbHalfCent 1 - fairShare dbHalfCent 1) := by
  have hraw : adiPaid dbHalfCent 1 - fairShare dbHalfCent 1 = 10001/200 := by
    norm_num [adiPaid, fairShare, totalExpenses, periodExpenses, dbHalfCent,
      payer_beq_ADI_ADI]
  have hup : roundHalfUp2 (10001/200) = 5001/100 := by
    rw [roundHalfUp2]
    norm_num
  have hstored : (calculate_settlement dbHalfCent 1).2.settlement_amount = 50 := by
    rw [calc_snd_settlement_amount]
    have : rawSettlementAmount dbHalfCent 1 = 10001/200 := by
      rw [rawSettlementAmount, if_pos]
      · exact hraw
      · norm_num [adiPaid, fairShare, totalExpenses, periodExpenses, dbHalfCent,
          payer_beq_ADI_ADI]
    rw [this, quantize2]
    norm_num
  refine ⟨hraw, hup, hstored, ?_⟩
  rw [hstored, hraw, hup]
  norm_num

/-- C2 (amended): the persisted `settlement_amount` is the raw amount
rounded to 2 decimal places with ROUND-HALF-EVEN (the Python default
quantize mode), not round-half-up; the two rules agree everywhere
except on an exact half-cent tie whose lower neighbour is an even cent,
where the code rounds down to that even cent. -/
theorem settlement_amount_rounding (db : DB) (pid : Nat) :
    (calculate_settlement db pid).2.settlement_amount
        = quantize2 (rawSettlementAmount db pid)
    ∧ ∀ v : ℚ, quantize2 v ≠ roundHalfUp2 v →
        v * 100 - ⌊v * 100⌋ = 1/2
        ∧ ⌊v * 100⌋ % 2 = 0
        ∧ quantize2 v = ⌊v * 100⌋ / 100 := by
  refine ⟨calc_snd_settlement_amount db pid, fun v hne => ?_⟩
  simp only [quantize2, roundHalfUp2] at hne ⊢
  by_cases h1 : v * 100 - ⌊v * 100⌋ < 1/2
  · rw [if_pos h1, if_pos h1] at hne
    exact absurd rfl hne
  · by_cases h2 : 1/2 < v * 100 - ⌊v * 100⌋
    · rw [if_neg h1, if_pos h2, if_neg h1] at hne
      exact absurd rfl hne
    · have htie : v * 100 - ⌊v * 100⌋ = 1/2 :=
        le_antisymm (not_lt.mp h2) (not_lt.mp h1)
      by_cases h3 : ⌊v * 100⌋ % 2 = 0
      · refine ⟨htie, h3, ?_⟩
        rw [if_neg h1, if_neg h2, if_pos h3]
      · rw [if_neg h1, if_neg h2, if_neg h3, if_neg h1] at hne
        exact absurd rfl hne

/-- Witness for the amended C2 theorem: at the half-cent store the two
rounding rules disagree, and the characterization applies there. -/
theorem settlement_amount_rounding_witness :
    (calculate_settlement dbHalfCent 1).2.settlement_amount
        = quantize2 (rawSettlementAmount dbHalfCent 1)
    ∧ ((10001:ℚ)/200) * 100 - ⌊((10001:ℚ)/200) * 100⌋ = 1/2
    ∧ ⌊((10001:ℚ)/200) * 100⌋ % 2 = 0
    ∧ quantize2 ((10001:ℚ)/200) = ⌊((10001:ℚ)/200) * 100⌋ / 100 := by
  have h := settlement_amount_rounding dbHalfCent 1
  refine ⟨h.1, h.2 ((10001:ℚ)/200) ?_⟩
  rw [quantize2, roundHalfUp2]
  norm_num

/-- C10: for an existing period with no time entries and no expenses,
GetOrCalculate succeeds and produces a settlement with all totals 0,
direction EVEN, settlement amount 0.00, and final amount equal to the
carryover amount (0 for a freshly created row, since the fresh-row
branch writes `carryover_amount = 0` and `final_amount =
settlement_amount`). -/
theorem empty_period_settlement (db : DB) (pid : Nat)
    (hp : (findPeriod db pid).isSome = true)
    (hte : periodTimeEntries db pid = [])
    (hex : periodExpenses db pid = []) :
    get_settlement db pid = .ok (calculate_settlement db pid)
    ∧ (calculate_settlement db pid).2.total_caregiver_cost = 0
    ∧ (calculate_settlement db pid).2.total_expenses = 0
    ∧ (calculate_settlement db pid).2.adi_paid = 0
    ∧ (calculate_settlement db pid).2.rafi_paid = 0
    ∧ (calculate_settlement db pid).2.settlement_direction
        = SettlementDirection.EVEN
    ∧ (calculate_settlement db pid).2.settlement_amount = 0
    ∧ (calculate_settlement db pid).2.final_amount
        = (calculate_settlement db pid).2.carryover_amount := by
  have hok : get_settlement db pid = .ok (calculate_settlement db pid) := by
    unfold get_settlement
    cases h : findPeriod db pid with
    | none => rw [h] at hp; simp at hp
    | some p => rfl
  have hadi : adiPaid db pid = 0 := by
    unfold adiPaid
    rw [hex]
    rfl
  have hrafi : rafiPaid db pid = 0 := by
    unfold rafiPaid
    rw [hex]
    rfl
  have htot : totalExpenses db pid = 0 := by
    unfold totalExpenses
    rw [hex]
    rfl
  have hfair : fairShare db pid = 0 := by
    unfold fairShare
    rw [htot]
    norm_num
  have hraw : rawSettlementAmount db pid = 0 := by
    unfold rawSettlementAmount
    rw [hadi, hrafi, hfair, if_neg (lt_irrefl 0), if_neg (lt_irrefl 0)]
  have hdir : settlementDirectionOf db pid = SettlementDirection.EVEN := by
    unfold settlementDirectionOf
    rw [hadi, hrafi, hfair, if_neg (lt_irrefl 0), if_neg (lt_irrefl 0)]
  have hcc : totalCaregiverCost db pid = 0 := by
    unfold totalCaregiverCost
    rw [hte]
    rfl
  have hamount : quantize2 (rawSettlementAmount db pid) = 0 := by
    rw [hraw, quantize2_zero]
  refine ⟨hok, ?_, ?_, ?_, ?_, ?_, ?_, ?_⟩
  · rw [calc_snd_total_caregiver_cost]; exact hcc
  · rw [calc_snd_total_expenses]; exact htot
  · rw [calc_snd_adi_paid]; exact hadi
  · rw [calc_snd_rafi_paid]; exact hrafi
  · rw [calc_snd_direction]; exact hdir
  · rw [calc_snd_settlement_amount]; exact hamount
  · cases h : findSettlement db pid with
    | some s =>
        obtain ⟨-, -, -, hco, hfin⟩ := calc_snd_preserved db pid s h
        rw [hfin, hco, hraw, quantize2_zero, zero_add]
    | none =>
        obtain ⟨-, -, -, hco, hfin, -⟩ := calc_snd_fresh db pid h
        rw [hfin, hco, hamount]

/-- Witness for C10: the store with one OPEN period and no rows at
all. -/
theorem empty_period_settlement_witness :
    get_settlement dbEmptyOpen 1 = .ok (calculate_settlement dbEmptyOpen 1)
    ∧ (calculate_settlement dbEmptyOpen 1).2.total_caregiver_cost = 0
    ∧ (calculate_settlement dbEmptyOpen 1).2.total_expenses = 0
    ∧ (calculate_settlement dbEmptyOpen 1).2.adi_paid = 0
    ∧ (calculate_settlement dbEmptyOpen 1).2.rafi_paid = 0
    ∧ (calculate_settlement dbEmptyOpen 1).2.settlement_direction
        = SettlementDirection.EVEN
    ∧ (calculate_settlement dbEmptyOpen 1).2.settlement_amount = 0
    ∧ (calculate_settlement dbEmptyOpen 1).2.final_amount
        = (calculate_settlement dbEmptyOpen 1).2.carryover_amount :=
  empty_period_settlement dbEmptyOpen 1 rfl rfl rfl

/-- C7: Create fails with a ValidationError when `end_date ≤ start_date`
(the Pydantic validator runs before the handler, so it wins when both
failure conditions hold), fails with a ConflictError when some period
is currently OPEN, and otherwise appends a single new OPEN period.
Failures abort before `db.add`, so an error outcome carries no state
change. -/
theorem create_pay_period_spec (db : DB) (s e : Int) (n : Option String)
    (i : Nat) :
    (e ≤ s → create_pay_period db s e n i
        = .error (.validation "end_date must be after start_date"))
    ∧ (¬ e ≤ s → findOpenPeriod db ≠ none → create_pay_period db s e n i
        = .error (.conflict
            "There is already an open period. Close it before creating a new one."))
    ∧ (¬ e ≤ s → findOpenPeriod db = none →
        create_pay_period db s e n i
          = .ok ({ db with periods := db.periods ++
                    [{ id := i, start_date := s, end_date := e,
                       status := PeriodStatus.OPEN, notes := n }] },
                 { id := i, start_date := s, end_date := e,
                   status := PeriodStatus.OPEN, notes := n })) := by
  refine ⟨fun h => ?_, fun h1 h2 => ?_, fun h1 h2 => ?_⟩
  · unfold create_pay_period
    rw [if_pos h]
  · unfold create_pay_period
    rw [if_neg h1]
    cases hq : findOpenPeriod db with
    | none => exact absurd hq h2
    | some q => rfl
  · unfold create_pay_period
    rw [if_neg h1]
    rw [h2]

/-- Witness for C7: the three outcomes on concrete stores (reversed
dates, an already-open period, and a clean create on the empty store). -/
theorem create_pay_period_spec_witness :
    create_pay_period dbEmptyOpen 14 0 none 2
        = .error (.validation "end_date must be after start_date")
    ∧ create_pay_period dbEmptyOpen 20 34 none 2
        = .error (.conflict
            "There is already an open period. Close it before creating a new one.")
    ∧ create_pay_period dbEmptyClosed 20 34 none 2
        = .ok ({ dbEmptyClosed with periods := dbEmptyClosed.periods ++
                  [{ id := 2, start_date := 20, end_date := 34,
                     status := PeriodStatus.OPEN, notes := none }] },
               { id := 2, start_date := 20, end_date := 34,
                 status := PeriodStatus.OPEN, notes := none }) :=
  ⟨(create_pay_period_spec dbEmptyOpen 14 0 none 2).1 (by decide),
   (create_pay_period_spec dbEmptyOpen 20 34 none 2).2.1 (by decide)
     (by simp [findOpenPeriod, dbEmptyOpen]),
   (create_pay_period_spec dbEmptyClosed 20 34 none 2).2.2 (by decide) rfl⟩

/-- C6: every store reachable from the empty store through successful
create and close calls has at most one OPEN period: create refuses to
run while some period is OPEN, and close only turns OPEN rows into
CLOSED ones. -/
theorem single_open_invariant (db : DB) (h : Reachable db) :
    countOpen db ≤ 1 := by
  induction h with
  | init => simp [countOpen]
  | create hdb hstep ih =>
      rename_i db0 db' s e n i p
      unfold create_pay_period at hstep
      split at hstep
      · exact absurd hstep (by simp)
      · split at hstep
        · exact absurd hstep (by simp)
        · rename_i hopen
          simp only [Except.ok.injEq, Prod.mk.injEq] at hstep
          obtain ⟨hdb', -⟩ := hstep
          subst hdb'
          have hzero : countOpen db0 = 0 := by
            unfold countOpen
            rw [List.countP_eq_zero]
            intro a ha
            have := List.find?_eq_none.mp hopen a ha
            simpa using this
          unfold countOpen at hzero ⊢
          simp only [List.countP_append, hzero]
          simp [List.countP, List.countP.go, status_beq_OPEN_OPEN]
  | close hdb hstep ih =>
      rename_i db0 db' pid p
      unfold close_pay_period at hstep
      split at hstep
      · exact absurd hstep (by simp)
      · rename_i period hfind
        split at hstep
        · exact absurd hstep (by simp)
        · simp only [Except.ok.injEq, Prod.mk.injEq] at hstep
          obtain ⟨hdb', -⟩ := hstep
          subst hdb'
          refine le_trans ?_ ih
          unfold countOpen setPeriod
          simp only [List.countP_map]
          refine List.countP_mono_left (fun x _ hx => ?_)
          simp only [Function.comp_apply] at hx
          by_cases hid : (x.id == pid) = true
          · rw [if_pos hid] at hx
            simp [status_beq_CLOSED_OPEN] at hx
          · rw [if_neg hid] at hx
            exact hx

/-- Witness for C6: the store holding exactly the one period that a
successful create on the empty store yields. -/
theorem single_open_invariant_witness : countOpen dbEmptyOpen ≤ 1 := by
  have hstep : create_pay_period
      { periods := [], time_entries := [], expenses := [], settlements := [] }
      0 14 none 1
      = .ok (dbEmptyOpen,
             { id := 1, start_date := 0, end_date := 14,
               status := PeriodStatus.OPEN }) := rfl
  exact single_open_invariant dbEmptyOpen (Reachable.create Reachable.init hstep)

/-- C9: on an existing period, Unsettle fails with a NotFoundError when
no settlement row exists and with a ConflictError when the row exists
but is not settled; both failures raise before the write section of the
handler, so the store is untouched. -/
theorem unsettle_failures (db : DB) (pid : Nat)
    (hp : (findPeriod db pid).isSome = true) :
    (findSettlement db pid = none →
        unsettle db pid = .error (.notFound "Settlement not found for this period"))
    ∧ (∀ s, findSettlement db pid = some s → s.settled = false →
        unsettle db pid = .error (.conflict "Settlement is not settled")) := by
  cases h : findPeriod db pid with
  | none => rw [h] at hp; simp at hp
  | some p =>
      constructor
      · intro hs
        unfold unsettle
        rw [h, hs]
      · intro t hs hsf
        unfold unsettle
        rw [h, hs]
        simp [hsf]

/-- Witness for C9: a store with a period but no settlement row, and a
store whose settlement row is not settled. -/
theorem unsettle_failures_witness :
    unsettle dbAdiOver 1
        = .error (.notFound "Settlement not found for this period")
    ∧ unsettle dbWithSettlement 1
        = .error (.conflict "Settlement is not settled") :=
  ⟨(unsettle_failures dbAdiOver 1 rfl).1 rfl,
   (unsettle_failures dbWithSettlement 1 rfl).2 sampleSettlement rfl rfl⟩

/-- C8: for a period with an existing settlement row, MarkSettled
followed by Unsettle succeeds and leaves exactly the original row with
`settled = false`, `settled_at = none` and `payment_method` equal to
the value MarkSettled stored - the record-update form of the result
makes every monetary field literally the original one. -/
theorem mark_then_unsettle_roundtrip (db : DB) (pid : Nat)
    (method : Option String) (now : Int) (s0 : Settlement)
    (hp : (findPeriod db pid).isSome = true)
    (hs : findSettlement db pid = some s0) :
    markThenUnsettle db pid method now
      = .ok (setSettlement (setSettlement db pid
              { s0 with settled := true, settled_at := some now,
                        payment_method := method }) pid
              { s0 with settled := false, settled_at := none,
                        payment_method := method },
            { s0 with settled := false, settled_at := none,
                      payment_method := method })
    ∧ findSettlement (setSettlement (setSettlement db pid
              { s0 with settled := true, settled_at := some now,
                        payment_method := method }) pid
              { s0 with settled := false, settled_at := none,
                        payment_method := method }) pid
        = some { s0 with settled := false, settled_at := none,
                         payment_method := method } := by
  have hid : s0.pay_period_id = pid := findSettlement_some_id db pid s0 hs
  cases h : findPeriod db pid with
  | none => rw [h] at hp; simp at hp
  | some p =>
      have hmark : mark_settled db pid method now
          = .ok (setSettlement db pid
                  { s0 with settled := true, settled_at := some now,
                            payment_method := method },
                { s0 with settled := true, settled_at := some now,
                          payment_method := method }) := by
        unfold mark_settled
        rw [h, hs]
      have hfind1 : findSettlement (setSettlement db pid
          { s0 with settled := true, settled_at := some now,
                    payment_method := method }) pid
          = some { s0 with settled := true, settled_at := some now,
                           payment_method := method } := by
        rw [findSettlement_setSettlement, hs]
        · rfl
        · exact hid
      have hfind2 : findSettlement (setSettlement (setSettlement db pid
          { s0 with settled := true, settled_at := some now,
                    payment_method := method }) pid
          { s0 with settled := false, settled_at := none,
                    payment_method := method }) pid
          = some { s0 with settled := false, settled_at := none,
                           payment_method := method } := by
        rw [findSettlement_setSettlement, hfind1]
        · rfl
        · exact hid
      refine ⟨?_, hfind2⟩
      simp only [markThenUnsettle, hmark]
      unfold unsettle
      rw [findPeriod_setSettlement, h, hfind1]
      rfl

/-- Witness for C8: the chain on the 800/200 store holding an
unsettled settlement row, marking with method "Transfer" at time 5. -/
theorem mark_then_unsettle_roundtrip_witness :
    markThenUnsettle dbWithSettlement 1 (some "Transfer") 5
      = .ok (setSettlement (setSettlement dbWithSettlement 1
              { sampleSettlement with
                  settled := true
                  settled_at := some 5
                  payment_method := some "Transfer" }) 1
              { sampleSettlement with
                  settled := false
                  settled_at := none
                  payment_method := some "Transfer" },
            { sampleSettlement with
                settled := false
                settled_at := none
                payment_method := some "Transfer" })
    ∧ findSettlement (setSettlement (setSettlement dbWithSettlement 1
              { sampleSettlement with
                  settled := true
                  settled_at := some 5
                  payment_method := some "Transfer" }) 1
              { sampleSettlement with
                  settled := false
                  settled_at := none
                  payment_method := some "Transfer" }) 1
        = some { sampleSettlement with
                   settled := false
                   settled_at := none
                   payment_method := some "Transfer" } :=
  mark_then_unsettle_roundtrip dbWithSettlement 1 (some "Transfer") 5
    sampleSettlement rfl rfl

/-- C5: GetOrCalculate is idempotent.  Recalculation over an existing
row overwrites exactly the monetary fields (stated through the derived
quantities) while preserving `settled`, `settled_at`, `payment_method`
and `carryover_amount`; a fresh row gets `carryover_amount = 0`; and a
second call on the unchanged store reproduces every monetary field of
the row of the first call. -/
theorem get_or_calculate_idempotent (db : DB) (pid : Nat) :
    (∀ s, findSettlement db pid = some s →
        findSettlement (calculate_settlement db pid).1 pid
            = some (calculate_settlement db pid).2
        ∧ (calculate_settlement db pid).2.settled = s.settled
        ∧ (calculate_settlement db pid).2.settled_at = s.settled_at
        ∧ (calculate_settlement db pid).2.payment_method = s.payment_method
        ∧ (calculate_settlement db pid).2.carryover_amount = s.carryover_amount)
    ∧ (findSettlement db pid = none →
        findSettlement (calculate_settlement db pid).1 pid
            = some (calculate_settlement db pid).2
        ∧ (calculate_settlement db pid).2.carryover_amount = 0)
    ∧ ((calculate_settlement db pid).2.total_caregiver_cost
          = totalCaregiverCost db pid
      ∧ (calculate_settlement db pid).2.total_expenses = totalExpenses db pid
      ∧ (calculate_settlement db pid).2.adi_paid = adiPaid db pid
      ∧ (calculate_settlement db pid).2.rafi_paid = rafiPaid db pid
      ∧ (calculate_settlement db pid).2.settlement_amount
          = quantize2 (rawSettlementAmount db pid)
      ∧ (calculate_settlement db pid).2.settlement_direction
          = settlementDirectionOf db pid)
    ∧ ((calculate_settlement (calculate_settlement db pid).1 pid).2.total_caregiver_cost
          = (calculate_settlement db pid).2.total_caregiver_cost
      ∧ (calculate_settlement (calculate_settlement db pid).1 pid).2.total_expenses
          = (calculate_settlement db pid).2.total_expenses
      ∧ (calculate_settlement (calculate_settlement db pid).1 pid).2.adi_paid
          = (calculate_settlement db pid).2.adi_paid
      ∧ (calculate_settlement (calculate_settlement db pid).1 pid).2.rafi_paid
          = (calculate_settlement db pid).2.rafi_paid
      ∧ (calculate_settlement (calculate_settlement db pid).1 pid).2.settlement_amount
          = (calculate_settlement db pid).2.settlement_amount
      ∧ (calculate_settlement (calculate_settlement db pid).1 pid).2.settlement_direction
          = (calculate_settlement db pid).2.settlement_direction
      ∧ (calculate_settlement (calculate_settlement db pid).1 pid).2.final_amount
          = (calculate_settlement db pid).2.final_amount) := by
  refine ⟨fun s hs => ?_, fun hnone => ?_, ?_, ?_⟩
  · obtain ⟨h1, h2, h3, h4, -⟩ := calc_snd_preserved db pid s hs
    exact ⟨findSettlement_calc db pid, h1, h2, h3, h4⟩
  · obtain ⟨-, -, -, h4, -, -⟩ := calc_snd_fresh db pid hnone
    exact ⟨findSettlement_calc db pid, h4⟩
  · exact ⟨calc_snd_total_caregiver_cost db pid, calc_snd_total_expenses db pid,
      calc_snd_adi_paid db pid, calc_snd_rafi_paid db pid,
      calc_snd_settlement_amount db pid, calc_snd_direction db pid⟩
  · obtain ⟨-, -, -, hco, hfin⟩ :=
      calc_snd_preserved (calculate_settlement db pid).1 pid
        (calculate_settlement db pid).2 (findSettlement_calc db pid)
    refine ⟨?_, ?_, ?_, ?_, ?_, ?_, ?_⟩
    · rw [calc_snd_total_caregiver_cost, calc_snd_total_caregiver_cost,
        totalCaregiverCost_calc_fst]
    · rw [calc_snd_total_expenses, calc_snd_total_expenses,
        totalExpenses_calc_fst]
    · rw [calc_snd_adi_paid, calc_snd_adi_paid, adiPaid_calc_fst]
    · rw [calc_snd_rafi_paid, calc_snd_rafi_paid, rafiPaid_calc_fst]
    · rw [calc_snd_settlement_amount, calc_snd_settlement_amount,
        rawSettlementAmount_calc_fst]
    · rw [calc_snd_direction, calc_snd_direction,
        settlementDirectionOf_calc_fst]
    · rw [hfin, rawSettlementAmount_calc_fst, calc_snd_final]

/-- Witness for C5: both the existing-row branch (800/200 store with a
settlement row) and the fresh-row branch (same store without one). -/
theorem get_or_calculate_idempotent_witness :
    (findSettlement (calculate_settlement dbWithSettlement 1).1 1
        = some (calculate_settlement dbWithSettlement 1).2
      ∧ (calculate_settlement dbWithSettlement 1).2.settled
          = sampleSettlement.settled
      ∧ (calculate_settlement dbWithSettlement 1).2.settled_at
          = sampleSettlement.settled_at
      ∧ (calculate_settlement dbWithSettlement 1).2.payment_method
          = sampleSettlement.payment_method
      ∧ (calculate_settlement dbWithSettlement 1).2.carryover_amount
          = sampleSettlement.carryover_amount)
    ∧ (findSettlement (calculate_settlement dbAdiOver 1).1 1
        = some (calculate_settlement dbAdiOver 1).2
      ∧ (calculate_settlement dbAdiOver 1).2.carryover_amount = 0) :=
  ⟨(get_or_calculate_idempotent dbWithSettlement 1).1 sampleSettlement rfl,
   (get_or_calculate_idempotent dbAdiOver 1).2.1 rfl⟩

/-- C1 (modelled from the spec, 4.1 Reopen, since the handler is absent
from the application source): Reopen fails NotFound when the period is
missing, Conflict when the period is already OPEN, Conflict when a
different period is currently OPEN (any OPEN period found while this
one is CLOSED is a different one), and on success transitions the
period to OPEN while force-unsettling any settlement row of this period
(settled = false, settled_at = none) and leaving the settlements table
untouched when no row exists for the period. -/
theorem reopen_spec (db : DB) (pid : Nat) :
    (findPeriod db pid = none →
        reopen_pay_period db pid = .error (.notFound "Pay period not found"))
    ∧ (∀ p, findPeriod db pid = some p → p.status = PeriodStatus.OPEN →
        reopen_pay_period db pid = .error (.conflict "Period is already open"))
    ∧ (∀ p q, findPeriod db pid = some p → p.status = PeriodStatus.CLOSED →
        findOpenPeriod db = some q →
        reopen_pay_period db pid
          = .error (.conflict "There is already an open period"))
    ∧ (∀ p, findPeriod db pid = some p → p.status = PeriodStatus.CLOSED →
        findOpenPeriod db = none →
        reopen_pay_period db pid
          = .ok ({ setPeriod db pid { p with status := PeriodStatus.OPEN } with
                    settlements := db.settlements.map (fun s =>
                      if s.pay_period_id == pid then
                        { s with settled := false, settled_at := none }
                      else s) },
                 { p with status := PeriodStatus.OPEN })
        ∧ (∀ s ∈ db.settlements.map (fun s =>
              if s.pay_period_id == pid then
                { s with settled := false, settled_at := none }
              else s), s.pay_period_id = pid →
            s.settled = false ∧ s.settled_at = none)
        ∧ (findSettlement db pid = none →
            db.settlements.map (fun s =>
              if s.pay_period_id == pid then
                { s with settled := false, settled_at := none }
              else s) = db.settlements)) := by
  refine ⟨fun h => ?_, fun p hp hop => ?_, fun p q hp hcl hq => ?_,
    fun p hp hcl hq => ⟨?_, fun s hs hsid => ?_, fun hnone => ?_⟩⟩
  · unfold reopen_pay_period
    rw [h]
  · simp only [reopen_pay_period, hp, hop, status_beq_OPEN_OPEN, if_true]
  · simp only [reopen_pay_period, hp, hcl, status_beq_CLOSED_OPEN,
      Bool.false_eq_true, if_false, hq]
  · simp only [reopen_pay_period, hp, hcl, status_beq_CLOSED_OPEN,
      Bool.false_eq_true, if_false, hq]
    rfl
  · rcases List.mem_map.mp hs with ⟨a, ha, rfl⟩
    by_cases hpid : (a.pay_period_id == pid) = true
    · rw [if_pos hpid]
      exact ⟨rfl, rfl⟩
    · rw [if_neg hpid] at hsid ⊢
      exact absurd (by simp [hsid]) hpid
  · have hall : ∀ a ∈ db.settlements, ¬(a.pay_period_id == pid) = true := by
      intro a ha
      exact List.find?_eq_none.mp hnone a ha
    have : db.settlements.map (fun s =>
        if s.pay_period_id == pid then
          { s with settled := false, settled_at := none }
        else s) = db.settlements.map id := by
      refine List.map_congr_left (fun a ha => ?_)
      rw [if_neg (hall a ha)]
      rfl
    rw [this, List.map_id]

/-- Witness for C1: the four branches on concrete stores - a missing
period, an already-open period, reopening while another period is open
(scenario 4), and the successful reopen of a closed settled period
(scenario 5: the settlement ends up unsettled, payment method kept). -/
theorem reopen_spec_witness :
    reopen_pay_period dbEmptyOpen 2
        = .error (.notFound "Pay period not found")
    ∧ reopen_pay_period dbEmptyOpen 1
        = .error (.conflict "Period is already open")
    ∧ reopen_pay_period dbClosedPlusOpen 1
        = .error (.conflict "There is already an open period")
    ∧ reopen_pay_period dbClosedSettled 1
        = .ok (dbClosedSettledReopened,
               { id := 1, start_date := 0, end_date := 14,
                 status := PeriodStatus.OPEN }) :=
  ⟨(reopen_spec dbEmptyOpen 2).1 rfl,
   (reopen_spec dbEmptyOpen 1).2.1 _ rfl rfl,
   (reopen_spec dbClosedPlusOpen 1).2.2.1 _ _ rfl rfl rfl,
   ((reopen_spec dbClosedSettled 1).2.2.2 _ rfl rfl rfl).1⟩

end MomCaregiver
